import Mathlib

/-!
Verification of `framework/wazuh/core/stats.py`.

The Python module is shallowly embedded: each function becomes a total Lean
function over explicit inputs.  The external filesystem is modelled as a map
`String → Option String` from a path to the content of the file at that path
(`none` meaning the open raises `IOError`), and library helpers used by the
module (`str.split`, `int`, `float`, `str.zfill`, `os.path.join`,
`file.readlines`) are given executable Lean models with Python's semantics.
Uncaught Python exceptions are modelled with `Except`.
-/

namespace WazuhStats

/-- Whitespace characters stripped by Python `int()` / `float()`. -/
def isPySpace (c : Char) : Bool :=
  c == ' ' || c == '\t' || c == '\n' || c == '\r' || c == '\x0b' || c == '\x0c'

/-- Strip leading and trailing Python whitespace from a character list. -/
def stripSpaces (cs : List Char) : List Char :=
  ((cs.dropWhile isPySpace).reverse.dropWhile isPySpace).reverse

/-- Decimal digit test. -/
def isDigitCh (c : Char) : Bool := '0' ≤ c && c ≤ '9'

/-- Numeric value of a decimal digit character. -/
def digitVal (c : Char) : Nat := c.toNat - '0'.toNat

/-- Value of a list of decimal digit characters read in base 10. -/
def digitsToNat (cs : List Char) : Nat := cs.foldl (fun a c => a * 10 + digitVal c) 0

/-- Helper for `pyInt`: a signed all-digit body. -/
def pyIntDigits (sgn : Int) (cs : List Char) : Option Int :=
  if cs ≠ [] ∧ cs.all isDigitCh then some (sgn * (digitsToNat cs : Int)) else none

/-- Model of Python `int(s)` on a decimal string: optional surrounding
whitespace, optional sign, then a non-empty run of digits.  `none` models the
raised `ValueError`. -/
def pyInt (s : String) : Option Int :=
  match stripSpaces s.toList with
  | '+' :: rest => pyIntDigits 1 rest
  | '-' :: rest => pyIntDigits (-1) rest
  | cs => pyIntDigits 1 cs

/-- Fuel-driven worker for `pySplit`: splits on the leftmost occurrence of the
separator, repeatedly, exactly like Python `str.split` with a non-empty
separator.  The fuel is always sufficient when called through `pySplit`. -/
def splitGo (sep : List Char) : Nat → List Char → List Char → List (List Char)
  | 0, cs, acc => [acc.reverse ++ cs]
  | Nat.succ fuel, cs, acc =>
    if sep.isPrefixOf cs ∧ sep ≠ [] then
      acc.reverse :: splitGo sep fuel (cs.drop sep.length) []
    else
      match cs with
      | [] => [acc.reverse]
      | c :: rest => splitGo sep fuel rest (c :: acc)

/-- Model of Python `s.split(sep)` for a non-empty separator `sep`. -/
def pySplit (s sep : String) : List String :=
  (splitGo sep.toList (s.toList.length + 1) s.toList []).map String.mk

/-- Model of Python `s[:-1]` (drop the final character, empty stays empty). -/
def pyDropLast (s : String) : String := String.mk s.toList.dropLast

/-- Model of Python `s[1:-1]` (drop the first and last characters). -/
def pySliceInner (s : String) : String := String.mk (s.toList.drop 1).dropLast

/-- Model of Python `f.readlines()` applied to decoded file content: split the
text after each newline character, keeping the newline on each line; a final
fragment without a newline is kept as a last line. -/
def readlinesGo : List Char → List Char → List String
  | [], [] => []
  | [], acc => [String.mk acc.reverse]
  | '\n' :: rest, acc => String.mk (acc.reverse ++ ['\n']) :: readlinesGo rest []
  | c :: rest, acc => readlinesGo rest (c :: acc)

/-- Model of Python `f.readlines()` on the whole file content. -/
def pyReadlines (s : String) : List String := readlinesGo s.toList []

/-- Model of Python `s.zfill(3)`: left-pad with `'0'` to width 3, keeping a
leading sign in front of the padding. -/
def zfill3 (s : String) : String :=
  let cs := s.toList
  if 3 ≤ cs.length then s
  else
    match cs with
    | c :: rest =>
      if c == '+' || c == '-' then String.mk (c :: (List.replicate (3 - cs.length) '0' ++ rest))
      else String.mk (List.replicate (3 - cs.length) '0' ++ cs)
    | [] => String.mk (List.replicate 3 '0')

/-- Model of posix `os.path.join` for two components. -/
def pyJoin (a b : String) : String :=
  if b.toList.head? = some '/' then b
  else if a = "" then b
  else if a.toList.getLast? = some '/' then a ++ b
  else a ++ "/" ++ b

/-- Decidable equality on `Except`, used to evaluate the embedded functions on
concrete inputs. -/
instance {ε α : Type} [DecidableEq ε] [DecidableEq α] : DecidableEq (Except ε α) :=
  fun a b =>
    match a, b with
    | .ok x, .ok y =>
      if h : x = y then isTrue (by rw [h]) else isFalse (fun hh => h (Except.ok.inj hh))
    | .error x, .error y =>
      if h : x = y then isTrue (by rw [h]) else isFalse (fun hh => h (Except.error.inj hh))
    | .ok _, .error _ => isFalse (fun hh => Except.noConfusion hh)
    | .error _, .ok _ => isFalse (fun hh => Except.noConfusion hh)

/-- Uncaught Python exception arising from the numeric conversions inside the
embedded functions (`int()` raising `ValueError`). -/
inductive PyExc
  | valueError
deriving DecidableEq

/-- One alert sub-record of the totals log (`{'sigid': ..., 'level': ...,
'times': ...}` in the source). -/
structure AlertRecord where
  sigid : Int
  level : Int
  times : Int
deriving DecidableEq

/-- One hour record of the totals log (`{'hour': ..., 'alerts': ...,
'totalAlerts': ..., 'events': ..., 'syscheck': ..., 'firewall': ...}`). -/
structure TotalsRecord where
  hour : Int
  alerts : List AlertRecord
  totalAlerts : Int
  events : Int
  syscheck : Int
  firewall : Int
deriving DecidableEq

/-- Loop body of `totals_` (stats.py lines 104-121): every line is classified
by its `'-'` split (4 fields: alert record) and otherwise by its `'--'` split
(5 fields: hour record; 0 or 1 fields: skipped; anything else: stop and return
`(True, affected)`).  `int()` failures surface as `.error`. -/
def totalsGo : List AlertRecord → List TotalsRecord → List String →
    Except PyExc (Bool × List TotalsRecord)
  | _, affected, [] => .ok (false, affected)
  | alerts, affected, line :: rest =>
    if (pySplit line "-").length = 4 then
      match pyInt (pySplit line "-")[1]!, pyInt (pySplit line "-")[2]!,
          pyInt (pySplit line "-")[3]! with
      | some s, some lv, some t => totalsGo (alerts ++ [⟨s, lv, t⟩]) affected rest
      | _, _, _ => .error .valueError
    else
      if (pySplit line "--").length ≠ 5 then
        if (pySplit line "--").length = 0 ∨ (pySplit line "--").length = 1 then
          totalsGo alerts affected rest
        else .ok (true, affected)
      else
        match pyInt (pySplit line "--")[0]!, pyInt (pySplit line "--")[1]!,
            pyInt (pySplit line "--")[2]!, pyInt (pySplit line "--")[3]!,
            pyInt (pySplit line "--")[4]! with
        | some h, some tA, some ev, some sc, some fw =>
          totalsGo [] (affected ++ [⟨h, alerts, tA, ev, sc, fw⟩]) rest
        | _, _, _, _, _ => .error .valueError

/-- Embedding of the parsing phase of `totals_` over the list of lines
returned by `readlines` on the daily totals log. -/
def totals_ (stats : List String) : Except PyExc (Bool × List TotalsRecord) :=
  totalsGo [] [] stats

/-- Classification of a well-formed alert line: its `'-'` split has exactly 4
fields and fields 1..3 parse as integers; returns the parsed record. -/
def alertOf (l : String) : Option AlertRecord :=
  if (pySplit l "-").length = 4 then
    (pyInt (pySplit l "-")[1]!).bind fun s =>
      (pyInt (pySplit l "-")[2]!).bind fun lv =>
        (pyInt (pySplit l "-")[3]!).map fun t => ⟨s, lv, t⟩
  else none

/-- The non-alert fields of a well-formed hour-closing line. -/
structure CloseData where
  hour : Int
  totalAlerts : Int
  events : Int
  syscheck : Int
  firewall : Int
deriving DecidableEq

/-- Classification of a well-formed hour-closing line: its `'-'` split does
not have 4 fields, its `'--'` split has exactly 5 fields, and all five fields
parse as integers; returns the parsed fields. -/
def closeOf (l : String) : Option CloseData :=
  if (pySplit l "-").length = 4 then none
  else if (pySplit l "--").length = 5 then
    (pyInt (pySplit l "--")[0]!).bind fun h =>
      (pyInt (pySplit l "--")[1]!).bind fun tA =>
        (pyInt (pySplit l "--")[2]!).bind fun ev =>
          (pyInt (pySplit l "--")[3]!).bind fun sc =>
            (pyInt (pySplit l "--")[4]!).map fun fw => ⟨h, tA, ev, sc, fw⟩
  else none

/-- Hour record assembled from the fields of a closing line and the pending
alert buffer. -/
def mkRecord (c : CloseData) (pending : List AlertRecord) : TotalsRecord :=
  ⟨c.hour, pending, c.totalAlerts, c.events, c.syscheck, c.firewall⟩

/-- Specification-side grouping of a well-formed totals log: each closing line
produces one hour record holding exactly the alert lines seen since the
previous closing line; pending alerts after the last closing line are
dropped. -/
def specGroups : List AlertRecord → List String → List TotalsRecord
  | _, [] => []
  | pending, l :: ls =>
    match alertOf l with
    | some a => specGroups (pending ++ [a]) ls
    | none =>
      match closeOf l with
      | some c => mkRecord c pending :: specGroups [] ls
      | none => specGroups pending ls

/-- A malformed totals-log line in the sense of stats.py line 112-116: not a
4-field alert line, and its `'--'` split has a field count other than
0, 1 or 5. -/
def malformedLine (l : String) : Prop :=
  (pySplit l "-").length ≠ 4 ∧ (pySplit l "--").length ≠ 5 ∧
    (pySplit l "--").length ≠ 0 ∧ (pySplit l "--").length ≠ 1

instance (l : String) : Decidable (malformedLine l) := by
  unfold malformedLine; infer_instance

theorem alertOf_some {l : String} {a : AlertRecord} (h : alertOf l = some a) :
    (pySplit l "-").length = 4 ∧
      pyInt (pySplit l "-")[1]! = some a.sigid ∧
      pyInt (pySplit l "-")[2]! = some a.level ∧
      pyInt (pySplit l "-")[3]! = some a.times := by
  unfold alertOf at h
  by_cases h4 : (pySplit l "-").length = 4
  · rw [if_pos h4] at h
    simp only [Option.bind_eq_some, Option.map_eq_some'] at h
    obtain ⟨s, h1, lv, h2, t, h3, rfl⟩ := h
    exact ⟨h4, h1, h2, h3⟩
  · rw [if_neg h4] at h
    exact absurd h (by simp)

theorem closeOf_some {l : String} {c : CloseData} (h : closeOf l = some c) :
    (pySplit l "-").length ≠ 4 ∧ (pySplit l "--").length = 5 ∧
      pyInt (pySplit l "--")[0]! = some c.hour ∧
      pyInt (pySplit l "--")[1]! = some c.totalAlerts ∧
      pyInt (pySplit l "--")[2]! = some c.events ∧
      pyInt (pySplit l "--")[3]! = some c.syscheck ∧
      pyInt (pySplit l "--")[4]! = some c.firewall := by
  unfold closeOf at h
  by_cases h4 : (pySplit l "-").length = 4
  · rw [if_pos h4] at h; exact absurd h (by simp)
  · rw [if_neg h4] at h
    by_cases h5 : (pySplit l "--").length = 5
    · rw [if_pos h5] at h
      simp only [Option.bind_eq_some, Option.map_eq_some'] at h
      obtain ⟨x0, h0, x1, h1, x2, h2, x3, h3, x4, h4', rfl⟩ := h
      exact ⟨h4, h5, h0, h1, h2, h3, h4'⟩
    · rw [if_neg h5] at h
      exact absurd h (by simp)

theorem closeOf_none_of_alert {l : String} {a : AlertRecord} (h : alertOf l = some a) :
    closeOf l = none := by
  obtain ⟨h4, -⟩ := alertOf_some h
  unfold closeOf
  rw [if_pos h4]

theorem alertOf_none_of_close {l : String} {c : CloseData} (h : closeOf l = some c) :
    alertOf l = none := by
  obtain ⟨h4, -⟩ := closeOf_some h
  unfold alertOf
  rw [if_neg h4]

theorem totalsGo_alert_step {l : String} {a : AlertRecord} (h : alertOf l = some a)
    (alerts : List AlertRecord) (affected : List TotalsRecord) (rest : List String) :
    totalsGo alerts affected (l :: rest) = totalsGo (alerts ++ [a]) affected rest := by
  obtain ⟨h4, h1, h2, h3⟩ := alertOf_some h
  simp [totalsGo, h4, h1, h2, h3]

theorem totalsGo_close_step {l : String} {c : CloseData} (h : closeOf l = some c)
    (alerts : List AlertRecord) (affected : List TotalsRecord) (rest : List String) :
    totalsGo alerts affected (l :: rest) =
      totalsGo [] (affected ++ [mkRecord c alerts]) rest := by
  obtain ⟨h4, h5, h0, h1, h2, h3, hf⟩ := closeOf_some h
  simp [totalsGo, h4, h5, h0, h1, h2, h3, hf, mkRecord]

theorem totalsGo_malformed_step {l : String} (h : malformedLine l)
    (alerts : List AlertRecord) (affected : List TotalsRecord) (rest : List String) :
    totalsGo alerts affected (l :: rest) = .ok (true, affected) := by
  obtain ⟨h4, h5, h0, h1⟩ := h
  simp [totalsGo, h4, h5, h0, h1]

theorem totalsGo_wf (lines : List String) :
    ∀ alerts affected,
      (∀ l ∈ lines, (alertOf l).isSome ∨ (closeOf l).isSome) →
      totalsGo alerts affected lines = .ok (false, affected ++ specGroups alerts lines) := by
  induction lines with
  | nil => intro alerts affected _; simp [totalsGo, specGroups]
  | cons l ls ih =>
    intro alerts affected h
    have hl := h l (List.mem_cons_self l ls)
    have hrest : ∀ x ∈ ls, (alertOf x).isSome ∨ (closeOf x).isSome :=
      fun x hx => h x (List.mem_cons_of_mem _ hx)
    rcases hl with ha | hc
    · obtain ⟨a, ha⟩ := Option.isSome_iff_exists.mp ha
      rw [totalsGo_alert_step ha, ih _ _ hrest]
      simp [specGroups, ha]
    · obtain ⟨c, hc⟩ := Option.isSome_iff_exists.mp hc
      rw [totalsGo_close_step hc, ih _ _ hrest]
      simp [specGroups, hc, alertOf_none_of_close hc]

theorem specGroups_length (pending : List AlertRecord) (lines : List String) :
    (specGroups pending lines).length =
      (lines.filter fun l => (closeOf l).isSome).length := by
  induction lines generalizing pending with
  | nil => simp [specGroups]
  | cons l ls ih =>
    rcases ha : alertOf l with _ | a
    · rcases hc : closeOf l with _ | c
      · simp [specGroups, ha, hc, ih]
      · simp [specGroups, ha, hc, ih]
    · simp [specGroups, ha, closeOf_none_of_alert ha, ih]

/-- C1: on a totals log whose lines are all well-formed 4-field alert lines or
well-formed 5-field closing lines, `totals_` returns `failed = false` together
with one hour record per closing line in file order, each holding exactly the
alert lines seen since the previous closing line (`specGroups`); trailing
alert lines after the last closing line appear in no record. -/
theorem totals_wellformed_parse (lines : List String)
    (h : ∀ l ∈ lines, (alertOf l).isSome ∨ (closeOf l).isSome) :
    totals_ lines = .ok (false, specGroups [] lines) ∧
      (specGroups [] lines).length =
        (lines.filter fun l => (closeOf l).isSome).length := by
  refine ⟨?_, specGroups_length [] lines⟩
  unfold totals_
  rw [totalsGo_wf lines [] [] h]
  simp

/-- Concrete log used to witness C1: two alert lines, one closing line and a
trailing alert line that is silently dropped. -/
def totalsLinesW : List String :=
  ["a-1-2-3\n", "b-4-5-6\n", "5--10--20--30--40\n", "c-7-8-9\n"]

theorem totals_wellformed_parse_witness :
    totals_ totalsLinesW = .ok (false, specGroups [] totalsLinesW) ∧
      (specGroups [] totalsLinesW).length =
        (totalsLinesW.filter fun l => (closeOf l).isSome).length :=
  totals_wellformed_parse totalsLinesW (by decide)

theorem totalsGo_wf_upTo (pre : List String) (bad : String) (post : List String)
    (hbad : malformedLine bad) :
    ∀ alerts affected,
      (∀ l ∈ pre, (alertOf l).isSome ∨ (closeOf l).isSome) →
      totalsGo alerts affected (pre ++ bad :: post) =
        .ok (true, affected ++ specGroups alerts pre) := by
  induction pre with
  | nil =>
    intro alerts affected _
    simpa [specGroups] using totalsGo_malformed_step hbad alerts affected post
  | cons l ls ih =>
    intro alerts affected h
    have hl := h l (List.mem_cons_self l ls)
    have hrest : ∀ x ∈ ls, (alertOf x).isSome ∨ (closeOf x).isSome :=
      fun x hx => h x (List.mem_cons_of_mem _ hx)
    rcases hl with ha | hc
    · obtain ⟨a, ha⟩ := Option.isSome_iff_exists.mp ha
      rw [List.cons_append, totalsGo_alert_step ha, ih _ _ hrest]
      simp [specGroups, ha]
    · obtain ⟨c, hc⟩ := Option.isSome_iff_exists.mp hc
      rw [List.cons_append, totalsGo_close_step hc, ih _ _ hrest]
      simp [specGroups, hc, alertOf_none_of_close hc]

/-- C2: on a totals log whose first malformed line (not a 4-field alert line,
`'--'` split with field count other than 0, 1 or 5) follows a well-formed
prefix, `totals_` stops at that line and returns `failed = true` together with
exactly the hour records accumulated from the lines strictly before it; no
exception is raised for the field-count violation. -/
theorem totals_malformed_partial (pre : List String) (bad : String) (post : List String)
    (hpre : ∀ l ∈ pre, (alertOf l).isSome ∨ (closeOf l).isSome)
    (hbad : malformedLine bad) :
    totals_ (pre ++ bad :: post) = .ok (true, specGroups [] pre) := by
  unfold totals_
  rw [totalsGo_wf_upTo pre bad post hbad [] [] hpre]
  simp

theorem totals_malformed_partial_witness :
    totals_ (["a-1-2-3\n", "5--10--20--30--40\n"] ++ "7--8--9\n" :: ["d-1-1-1\n"]) =
      .ok (true, specGroups [] ["a-1-2-3\n", "5--10--20--30--40\n"]) :=
  totals_malformed_partial ["a-1-2-3\n", "5--10--20--30--40\n"] "7--8--9\n" ["d-1-1-1\n"]
    (by decide) (by decide)

/-- Day names indexed by weekday number, as in stats.py line 15. -/
def DAYS : List String := ["Sun", "Mon", "Tue", "Wed", "Thu", "Fri", "Sat"]

/-- Path of hourly bucket file `i` (stats.py line 31). -/
def hourlyPath (sp : String) (i : Nat) : String := sp ++ "/hourly-average/" ++ toString i

/-- Path of weekly bucket file `j` of day `i` (stats.py line 60). -/
def weeklyPath (sp : String) (i j : Nat) : String :=
  sp ++ "/weekly-average/" ++ toString i ++ "/" ++ toString j

/-- Shared bucket-reading loop of `hourly_` and `weekly_` (stats.py lines
29-41 and 58-70): for each index, a file that opens is read and parsed with
`int()` (slot 24 is the interactions counter, the others are appended to the
averages); an unreadable file contributes 0 instead.  An `int()` failure on a
file that did open is an uncaught `ValueError`. -/
def bucketLoop (fs : String → Option String) (path : Nat → String) :
    List Nat → List Int → Int → Except PyExc (List Int × Int)
  | [], avgs, inter => .ok (avgs, inter)
  | i :: rest, avgs, inter =>
    match fs (path i) with
    | some data =>
      match pyInt data with
      | some n =>
        if i = 24 then bucketLoop fs path rest avgs n
        else bucketLoop fs path rest (avgs ++ [n]) inter
      | none => .error .valueError
    | none =>
      if i < 24 then bucketLoop fs path rest (avgs ++ [0]) inter
      else bucketLoop fs path rest avgs 0

/-- Result record of `hourly_` (`{'averages': ..., 'interactions': ...}`). -/
structure HourlyStats where
  averages : List Int
  interactions : Int
deriving DecidableEq

/-- Result record of `weekly_` (`{DAYS[i]: {'hours': ..., 'interactions':
...}}`). -/
structure WeeklyStats where
  day : String
  hours : List Int
  interactions : Int
deriving DecidableEq

/-- Embedding of `hourly_` (stats.py lines 19-43) over the filesystem map. -/
def hourly_ (fs : String → Option String) (sp : String) : Except PyExc (List HourlyStats) :=
  (bucketLoop fs (hourlyPath sp) (List.range 25) [] 0).map fun r => [⟨r.1, r.2⟩]

/-- Outer day loop of `weekly_` (stats.py lines 55-71). -/
def weeklyGo (fs : String → Option String) (sp : String) :
    List Nat → List WeeklyStats → Except PyExc (List WeeklyStats)
  | [], acc => .ok acc
  | i :: rest, acc =>
    match bucketLoop fs (weeklyPath sp i) (List.range 25) [] 0 with
    | .ok r => weeklyGo fs sp rest (acc ++ [⟨DAYS[i]!, r.1, r.2⟩])
    | .error e => .error e

/-- Embedding of `weekly_` (stats.py lines 46-73) over the filesystem map. -/
def weekly_ (fs : String → Option String) (sp : String) : Except PyExc (List WeeklyStats) :=
  weeklyGo fs sp (List.range 7) []

/-- Expected value of one bucket slot: the parsed integer when the file is
readable, 0 when it is missing (and 0 as a dummy for an unparseable file,
a case excluded by the hypotheses that use this definition). -/
def specBucket (fs : String → Option String) (path : Nat → String) (i : Nat) : Int :=
  match fs (path i) with
  | some s => (pyInt s).getD 0
  | none => 0

/-- Bucket file `i` is absent or parses as an integer. -/
def bucketOk (fs : String → Option String) (path : Nat → String) (i : Nat) : Bool :=
  match fs (path i) with
  | some s => (pyInt s).isSome
  | none => true

theorem bucketLoop_wf_append (fs : String → Option String) (path : Nat → String)
    (is : List Nat) :
    ∀ rest avgs inter, (∀ i ∈ is, i < 24) → (∀ i ∈ is, bucketOk fs path i = true) →
      bucketLoop fs path (is ++ rest) avgs inter =
        bucketLoop fs path rest (avgs ++ is.map (specBucket fs path)) inter := by
  induction is with
  | nil => intro rest avgs inter _ _; simp
  | cons i is' ih =>
    intro rest avgs inter hlt hok
    have hi : i < 24 := hlt i (List.mem_cons_self i is')
    have hoki := hok i (List.mem_cons_self i is')
    rcases hfs : fs (path i) with _ | s
    · rw [List.cons_append]
      simp only [bucketLoop, hfs, if_pos hi]
      rw [ih rest _ inter (fun x hx => hlt x (List.mem_cons_of_mem _ hx))
        (fun x hx => hok x (List.mem_cons_of_mem _ hx))]
      simp [specBucket, hfs]
    · rw [bucketOk, hfs] at hoki
      obtain ⟨n, hn⟩ := Option.isSome_iff_exists.mp hoki
      rw [List.cons_append]
      simp only [bucketLoop, hfs, hn, if_neg (Nat.ne_of_lt hi)]
      rw [ih rest _ inter (fun x hx => hlt x (List.mem_cons_of_mem _ hx))
        (fun x hx => hok x (List.mem_cons_of_mem _ hx))]
      simp [specBucket, hfs, hn]

theorem bucketLoop_run (fs : String → Option String) (path : Nat → String)
    (hok : ∀ i, i < 25 → bucketOk fs path i = true) :
    bucketLoop fs path (List.range 25) [] 0 =
      .ok ((List.range 24).map (specBucket fs path), specBucket fs path 24) := by
  rw [show (25 : Nat) = 24 + 1 from rfl, List.range_succ]
  rw [bucketLoop_wf_append fs path (List.range 24) [24] [] 0
    (fun i hi => List.mem_range.mp hi)
    (fun i hi => hok i (Nat.lt_succ_of_lt (List.mem_range.mp hi)))]
  have h24 := hok 24 (by omega)
  rcases hfs : fs (path 24) with _ | s
  · simp [bucketLoop, hfs, specBucket]
  · rw [bucketOk, hfs] at h24
    obtain ⟨n, hn⟩ := Option.isSome_iff_exists.mp h24
    simp [bucketLoop, hfs, hn, specBucket]

theorem bucketLoop_err (fs : String → Option String) (path : Nat → String)
    (is : List Nat) :
    ∀ avgs inter, (∃ i ∈ is, ∃ s, fs (path i) = some s ∧ pyInt s = none) →
      bucketLoop fs path is avgs inter = .error .valueError := by
  induction is with
  | nil => intro _ _ h; simp at h
  | cons i is' ih =>
    intro avgs inter h
    obtain ⟨k, hk, s, hfs, hint⟩ := h
    rcases List.mem_cons.mp hk with rfl | hk'
    · simp [bucketLoop, hfs, hint]
    · rcases hfs' : fs (path i) with _ | s'
      · by_cases h24 : i < 24
        · simp only [bucketLoop, hfs', if_pos h24]
          exact ih _ _ ⟨k, hk', s, hfs, hint⟩
        · simp only [bucketLoop, hfs', if_neg h24]
          exact ih _ _ ⟨k, hk', s, hfs, hint⟩
      · rcases hint' : pyInt s' with _ | n
        · simp [bucketLoop, hfs', hint']
        · by_cases h24 : i = 24
          · simp only [bucketLoop, hfs', hint', if_pos h24]
            exact ih _ _ ⟨k, hk', s, hfs, hint⟩
          · simp only [bucketLoop, hfs', hint', if_neg h24]
            exact ih _ _ ⟨k, hk', s, hfs, hint⟩

/-- Expected record for day `i` of `weekly_`. -/
def weeklySpecRecord (fs : String → Option String) (sp : String) (i : Nat) : WeeklyStats :=
  ⟨DAYS[i]!, (List.range 24).map (specBucket fs (weeklyPath sp i)),
    specBucket fs (weeklyPath sp i) 24⟩

/-- Expected result of `weekly_`. -/
def weeklySpec (fs : String → Option String) (sp : String) : List WeeklyStats :=
  (List.range 7).map (weeklySpecRecord fs sp)

theorem weeklyGo_wf (fs : String → Option String) (sp : String) (is : List Nat) :
    ∀ acc, (∀ i ∈ is, ∀ j, j < 25 → bucketOk fs (weeklyPath sp i) j = true) →
      weeklyGo fs sp is acc = .ok (acc ++ is.map (weeklySpecRecord fs sp)) := by
  induction is with
  | nil => intro acc _; simp [weeklyGo]
  | cons i is' ih =>
    intro acc h
    have hi := h i (List.mem_cons_self i is')
    simp only [weeklyGo, bucketLoop_run fs (weeklyPath sp i) hi]
    rw [ih _ (fun x hx => h x (List.mem_cons_of_mem _ hx))]
    simp [weeklySpecRecord]

theorem weeklyGo_err (fs : String → Option String) (sp : String) (is : List Nat) :
    ∀ acc, (∃ i ∈ is, ∃ j, j < 25 ∧ ∃ s, fs (weeklyPath sp i j) = some s ∧ pyInt s = none) →
      weeklyGo fs sp is acc = .error .valueError := by
  induction is with
  | nil => intro _ h; simp at h
  | cons i is' ih =>
    intro acc h
    obtain ⟨k, hk, j, hj, s, hfs, hint⟩ := h
    rcases List.mem_cons.mp hk with rfl | hk'
    · have herr : bucketLoop fs (weeklyPath sp k) (List.range 25) [] 0 = .error .valueError :=
        bucketLoop_err fs (weeklyPath sp k) (List.range 25) [] 0
          ⟨j, List.mem_range.mpr hj, s, hfs, hint⟩
      simp [weeklyGo, herr]
    · rcases hres : bucketLoop fs (weeklyPath sp i) (List.range 25) [] 0 with e | r
      · cases e
        simp [weeklyGo, hres]
      · simp only [weeklyGo, hres]
        exact ih _ ⟨k, hk', j, hj, s, hfs, hint⟩

/-- Expected averages sequence of `hourly_`. -/
def hourlySpecAverages (fs : String → Option String) (sp : String) : List Int :=
  (List.range 24).map (specBucket fs (hourlyPath sp))

/-- C7: whatever the pattern of missing bucket files, `hourly_` and `weekly_`
return without raising, each missing bucket (and a missing interactions file)
contributes 0, and the averages (resp. hours) sequence of every returned
record has length exactly 24. -/
theorem averages_zero_default (fs : String → Option String) (sp : String)
    (hH : ∀ i, i < 25 → bucketOk fs (hourlyPath sp) i = true)
    (hW : ∀ i, i < 7 → ∀ j, j < 25 → bucketOk fs (weeklyPath sp i) j = true) :
    (hourly_ fs sp =
        .ok [⟨hourlySpecAverages fs sp, specBucket fs (hourlyPath sp) 24⟩] ∧
      (hourlySpecAverages fs sp).length = 24 ∧
      (∀ i, i < 24 → fs (hourlyPath sp i) = none →
        (hourlySpecAverages fs sp)[i]? = some 0) ∧
      (fs (hourlyPath sp 24) = none → specBucket fs (hourlyPath sp) 24 = 0)) ∧
    (weekly_ fs sp = .ok (weeklySpec fs sp) ∧
      (weeklySpec fs sp).length = 7 ∧
      (∀ r ∈ weeklySpec fs sp, r.hours.length = 24) ∧
      (∀ i, i < 7 → ∀ j, j < 24 → fs (weeklyPath sp i j) = none →
        ∃ r, (weeklySpec fs sp)[i]? = some r ∧ r.hours[j]? = some 0)) := by
  refine ⟨⟨?_, ?_, ?_, ?_⟩, ⟨?_, ?_, ?_, ?_⟩⟩
  · unfold hourly_
    rw [bucketLoop_run fs (hourlyPath sp) hH]
    rfl
  · simp [hourlySpecAverages]
  · intro i hi hfs
    simp [hourlySpecAverages, List.getElem?_map, List.getElem?_range, hi, specBucket, hfs]
  · intro hfs
    simp [specBucket, hfs]
  · unfold weekly_
    rw [weeklyGo_wf fs sp (List.range 7) []
      (fun i hi => hW i (List.mem_range.mp hi))]
    simp [weeklySpec]
  · simp [weeklySpec]
  · intro r hr
    obtain ⟨i, hi, rfl⟩ := List.mem_map.mp hr
    simp [weeklySpecRecord]
  · intro i hi j hj hfs
    refine ⟨weeklySpecRecord fs sp i, ?_, ?_⟩
    · simp [weeklySpec, List.getElem?_map, List.getElem?_range, hi]
    · simp [weeklySpecRecord, List.getElem?_map, List.getElem?_range, hj, specBucket, hfs]

/-- Filesystem used to witness C7: one readable hourly bucket, one readable
weekly bucket, everything else missing. -/
def fsZeroW : String → Option String := fun p =>
  if p = hourlyPath "/var/ossec/stats" 0 then some "5"
  else if p = weeklyPath "/var/ossec/stats" 1 2 then some "7"
  else none

theorem averages_zero_default_witness :
    hourly_ fsZeroW "/var/ossec/stats" =
        .ok [⟨hourlySpecAverages fsZeroW "/var/ossec/stats",
          specBucket fsZeroW (hourlyPath "/var/ossec/stats") 24⟩] ∧
      (hourlySpecAverages fsZeroW "/var/ossec/stats").length = 24 ∧
      weekly_ fsZeroW "/var/ossec/stats" = .ok (weeklySpec fsZeroW "/var/ossec/stats") ∧
      (weeklySpec fsZeroW "/var/ossec/stats").length = 7 := by
  have h := averages_zero_default fsZeroW "/var/ossec/stats" (by decide) (by decide)
  exact ⟨h.1.1, h.1.2.1, h.2.1, h.2.2.1⟩

/-- C10: the zero default of `hourly_` / `weekly_` applies only to unreadable
bucket files; a bucket file that opens but whose content does not parse as an
integer makes the function raise the uncaught `int()` conversion error instead
of defaulting the slot to 0. -/
theorem averages_parse_error_raises (fs : String → Option String) (sp : String) :
    ((∃ i, i < 25 ∧ ∃ s, fs (hourlyPath sp i) = some s ∧ pyInt s = none) →
      hourly_ fs sp = .error .valueError) ∧
    ((∃ i, i < 7 ∧ ∃ j, j < 25 ∧ ∃ s, fs (weeklyPath sp i j) = some s ∧ pyInt s = none) →
      weekly_ fs sp = .error .valueError) := by
  constructor
  · intro ⟨i, hi, s, hfs, hint⟩
    unfold hourly_
    rw [bucketLoop_err fs (hourlyPath sp) (List.range 25) [] 0
      ⟨i, List.mem_range.mpr hi, s, hfs, hint⟩]
    rfl
  · intro ⟨i, hi, j, hj, s, hfs, hint⟩
    unfold weekly_
    exact weeklyGo_err fs sp (List.range 7) []
      ⟨i, List.mem_range.mpr hi, j, hj, s, hfs, hint⟩

/-- Filesystem used to witness C10: one hourly bucket and one weekly bucket
exist but hold non-numeric text. -/
def fsBadW : String → Option String := fun p =>
  if p = hourlyPath "/s" 3 then some "x"
  else if p = weeklyPath "/s" 2 5 then some "y"
  else none

theorem averages_parse_error_raises_witness :
    hourly_ fsBadW "/s" = .error .valueError ∧
      weekly_ fsBadW "/s" = .error .valueError :=
  ⟨(averages_parse_error_raises fsBadW "/s").1 ⟨3, by decide, "x", by decide, by decide⟩,
    (averages_parse_error_raises fsBadW "/s").2 ⟨2, by decide, 5, by decide, "y", by decide, by decide⟩⟩

/-- Platform-typed exception family (`WazuhException` and its subclasses), as
caught by `get_agents_component_stats_json_`. -/
inductive WazuhExc
  | resourceNotFound (code : Nat)
  | wazuhError (code : Nat)
deriving DecidableEq

/-- Outcome of the external per-agent stats accessor
`agent.Agent(agent_id).get_stats(component)`: a payload, a raised
platform-typed exception, or a raised exception outside the platform family
(which `get_agents_component_stats_json_` does not catch). -/
inductive FetchOutcome (α : Type)
  | ok (payload : α)
  | wexc (e : WazuhExc)
  | unexpected
deriving DecidableEq

/-- Whether the accessor outcome is an uncaught, non-platform exception. -/
def FetchOutcome.isUnexpected {α : Type} : FetchOutcome α → Bool
  | .unexpected => true
  | _ => false

/-- Loop of `get_agents_component_stats_json_` (stats.py lines 194-205): for
each agent id in order, an id absent from the inventory records a
`WazuhResourceNotFound(1701)` failure; otherwise the accessor runs, its
payload is appended to `affected` and a raised platform-typed exception is
recorded as a failure; any other exception propagates (`.error ()`). -/
def agentsGo {α : Type} (sys : List String) (fetch : String → String → FetchOutcome α)
    (component : String) :
    List (String × WazuhExc) → List α → List String →
      Except Unit (List (String × WazuhExc) × List α)
  | failed, affected, [] => .ok (failed, affected)
  | failed, affected, aid :: rest =>
    if aid ∈ sys then
      match fetch aid component with
      | .ok payload => agentsGo sys fetch component failed (affected ++ [payload]) rest
      | .wexc e => agentsGo sys fetch component (failed ++ [(aid, e)]) affected rest
      | .unexpected => .error ()
    else agentsGo sys fetch component (failed ++ [(aid, .resourceNotFound 1701)]) affected rest

/-- Embedding of `get_agents_component_stats_json_` over the external agent
inventory `sys` and stats accessor `fetch`. -/
def get_agents_component_stats_json_ {α : Type} (sys : List String)
    (fetch : String → String → FetchOutcome α) (agent_list : List String)
    (component : String) : Except Unit (List (String × WazuhExc) × List α) :=
  agentsGo sys fetch component [] [] agent_list

/-- Expected failure sequence: the input ids, in order, that are absent from
the inventory (paired with the 1701 error) or whose fetch raised a
platform-typed exception (paired with it). -/
def specFailed {α : Type} (sys : List String) (fetch : String → String → FetchOutcome α)
    (component : String) (ids : List String) : List (String × WazuhExc) :=
  ids.filterMap fun aid =>
    if aid ∈ sys then
      match fetch aid component with
      | .wexc e => some (aid, e)
      | _ => none
    else some (aid, .resourceNotFound 1701)

/-- Expected success sequence: the payloads of the input ids, in order, that
are in the inventory and whose fetch succeeded. -/
def specAffected {α : Type} (sys : List String) (fetch : String → String → FetchOutcome α)
    (component : String) (ids : List String) : List α :=
  ids.filterMap fun aid =>
    if aid ∈ sys then
      match fetch aid component with
      | .ok p => some p
      | _ => none
    else none

theorem agentsGo_run {α : Type} (sys : List String)
    (fetch : String → String → FetchOutcome α) (component : String) (ids : List String) :
    ∀ failed affected,
      (∀ aid ∈ ids, aid ∈ sys → (fetch aid component).isUnexpected = false) →
      agentsGo sys fetch component failed affected ids =
        .ok (failed ++ specFailed sys fetch component ids,
          affected ++ specAffected sys fetch component ids) := by
  induction ids with
  | nil => intro failed affected _; simp [agentsGo, specFailed, specAffected]
  | cons aid rest ih =>
    intro failed affected h
    have hrest : ∀ x ∈ rest, x ∈ sys → (fetch x component).isUnexpected = false :=
      fun x hx => h x (List.mem_cons_of_mem _ hx)
    by_cases hs : aid ∈ sys
    · rcases hf : fetch aid component with p | e | _
      · simp only [agentsGo, if_pos hs, hf]
        rw [ih _ _ hrest]
        simp [specFailed, specAffected, if_pos hs, hf]
      · simp only [agentsGo, if_pos hs, hf]
        rw [ih _ _ hrest]
        simp [specFailed, specAffected, if_pos hs, hf]
      · have hu := h aid (List.mem_cons_self aid rest) hs
        rw [hf] at hu
        simp [FetchOutcome.isUnexpected] at hu
    · simp only [agentsGo, if_neg hs]
      rw [ih _ _ hrest]
      simp [specFailed, specAffected, if_neg hs]

theorem specPartition_length {α : Type} (sys : List String)
    (fetch : String → String → FetchOutcome α) (component : String) (ids : List String)
    (h : ∀ aid ∈ ids, aid ∈ sys → (fetch aid component).isUnexpected = false) :
    (specFailed sys fetch component ids).length +
      (specAffected sys fetch component ids).length = ids.length := by
  induction ids with
  | nil => simp [specFailed, specAffected]
  | cons aid rest ih =>
    have hrest : ∀ x ∈ rest, x ∈ sys → (fetch x component).isUnexpected = false :=
      fun x hx => h x (List.mem_cons_of_mem _ hx)
    have ih' := ih hrest
    by_cases hs : aid ∈ sys
    · rcases hf : fetch aid component with p | e | _
      · simp only [specFailed, specAffected, List.filterMap_cons, if_pos hs, hf] at ih' ⊢
        simp only [List.length_cons]
        omega
      · simp only [specFailed, specAffected, List.filterMap_cons, if_pos hs, hf] at ih' ⊢
        simp only [List.length_cons]
        omega
      · have hu := h aid (List.mem_cons_self aid rest) hs
        rw [hf] at hu
        simp [FetchOutcome.isUnexpected] at hu
    · simp only [specFailed, specAffected, List.filterMap_cons, if_neg hs] at ih' ⊢
      simp only [List.length_cons]
      omega

/-- C6: `get_agents_component_stats_json_` places every input agent id in
exactly one of the two output sequences, preserving input order: ids absent
from the inventory and ids whose fetch raised a platform-typed error land in
`failed` (with the 1701 error resp. the raised error), every other id's
payload lands in `affected`, and a platform-typed failure does not abort the
remaining ids. -/
theorem agents_partition {α : Type} (sys : List String)
    (fetch : String → String → FetchOutcome α) (agent_list : List String)
    (component : String)
    (h : ∀ aid ∈ agent_list, aid ∈ sys → (fetch aid component).isUnexpected = false) :
    get_agents_component_stats_json_ sys fetch agent_list component =
        .ok (specFailed sys fetch component agent_list,
          specAffected sys fetch component agent_list) ∧
      (specFailed sys fetch component agent_list).length +
        (specAffected sys fetch component agent_list).length = agent_list.length ∧
      (∀ aid ∈ agent_list, aid ∉ sys →
        (aid, WazuhExc.resourceNotFound 1701) ∈ specFailed sys fetch component agent_list) ∧
      (∀ aid ∈ agent_list, ∀ e, fetch aid component = .wexc e → aid ∈ sys →
        (aid, e) ∈ specFailed sys fetch component agent_list) ∧
      (∀ aid ∈ agent_list, ∀ p, fetch aid component = .ok p → aid ∈ sys →
        p ∈ specAffected sys fetch component agent_list) := by
  refine ⟨?_, specPartition_length sys fetch component agent_list h, ?_, ?_, ?_⟩
  · unfold get_agents_component_stats_json_
    rw [agentsGo_run sys fetch component agent_list [] [] h]
    simp
  · intro aid ha hs
    exact List.mem_filterMap.mpr ⟨aid, ha, by simp [if_neg hs]⟩
  · intro aid ha e hf hs
    exact List.mem_filterMap.mpr ⟨aid, ha, by simp [if_pos hs, hf]⟩
  · intro aid ha p hf hs
    exact List.mem_filterMap.mpr ⟨aid, ha, by simp [if_pos hs, hf]⟩

/-- Agent inventory used to witness C6. -/
def sysW : List String := ["001", "003"]

/-- Stats accessor used to witness C6: agent 001 succeeds, agent 003 raises a
platform-typed error, anything else would raise an unexpected exception (but
is never fetched in the witness input). -/
def fetchW : String → String → FetchOutcome Nat := fun aid _ =>
  if aid = "001" then .ok 7
  else if aid = "003" then .wexc (.wazuhError 1747)
  else .unexpected

theorem agents_partition_witness :
    get_agents_component_stats_json_ sysW fetchW ["001", "002", "003"] "logcollector" =
        .ok (specFailed sysW fetchW "logcollector" ["001", "002", "003"],
          specAffected sysW fetchW "logcollector" ["001", "002", "003"]) ∧
      (specFailed sysW fetchW "logcollector" ["001", "002", "003"]).length +
        (specAffected sysW fetchW "logcollector" ["001", "002", "003"]).length = 3 := by
  have h := agents_partition sysW fetchW ["001", "002", "003"] "logcollector" (by decide)
  exact ⟨h.1, h.2.1⟩

/-- Optional leading sign of a Python numeric literal. -/
def readSign : List Char → Int × List Char
  | '+' :: r => (1, r)
  | '-' :: r => (-1, r)
  | cs => (1, cs)

/-- Split a character list into its leading digit run and the remainder. -/
def spanDigits (cs : List Char) : List Char × List Char :=
  (cs.takeWhile isDigitCh, cs.dropWhile isDigitCh)

/-- Exact decimal value of a parsed Python float literal:
`mantissa * 10 ^ exp10`.  The claims of this module only involve decimal
literals, which binary floats represent deterministically, so the parsed
decimal is an exact model of the `float()` result. -/
structure PyFloat where
  mantissa : Int
  exp10 : Int
deriving DecidableEq

/-- Rational value denoted by a parsed float. -/
def PyFloat.toRat (x : PyFloat) : Rat := (x.mantissa : Rat) * (10 : Rat) ^ x.exp10

/-- Body of `pyFloat` after whitespace stripping. -/
def pyFloatCore (cs0 : List Char) : Option PyFloat :=
  let sgn := (readSign cs0).1
  let cs1 := (readSign cs0).2
  let ip := (spanDigits cs1).1
  let cs2 := (spanDigits cs1).2
  let fpRest : List Char × List Char :=
    match cs2 with
    | '.' :: r => spanDigits r
    | _ => ([], cs2)
  let fp := fpRest.1
  let cs3 := fpRest.2
  if ip = [] ∧ fp = [] then none
  else
    let mant : Int := sgn * (digitsToNat (ip ++ fp) : Int)
    match cs3 with
    | [] => some ⟨mant, -(fp.length : Int)⟩
    | c :: r =>
      if c = 'e' ∨ c = 'E' then
        let esgn := (readSign r).1
        let r1 := (readSign r).2
        let ed := (spanDigits r1).1
        let r2 := (spanDigits r1).2
        if ed = [] ∨ r2 ≠ [] then none
        else some ⟨mant, esgn * (digitsToNat ed : Int) - (fp.length : Int)⟩
      else none

/-- Model of Python `float(s)` on a finite decimal literal: optional
surrounding whitespace, optional sign, digits with an optional fractional part
and an optional decimal exponent; the value is represented exactly as a
decimal.  The special values `inf`/`nan` are not modelled (no claim depends
on them), and `none` models the raised `ValueError`. -/
def pyFloat (s : String) : Option PyFloat := pyFloatCore (stripSpaces s.toList)

/-- Python dict assignment `items[k] = v`: the value is replaced in place when
the key exists, appended otherwise (insertion order preserved, last wins). -/
def pyDictSet : List (String × PyFloat) → String → PyFloat → List (String × PyFloat)
  | [], k, v => [(k, v)]
  | (k', v') :: rest, k, v =>
    if k' = k then (k, v) :: rest else (k', v') :: pyDictSet rest k v

/-- Result of `get_daemons_stats_`: the returned `[items]` value, the returned
(not raised) `WazuhInternalError(1104, str(e))` object, or the raised
`WazuhError(1308, filename)`. -/
inductive DaemonStatsOutcome
  | ok (res : List (List (String × PyFloat)))
  | internalError (code : Nat) (msg : String)
  | raisedError (code : Nat) (extra : String)
deriving DecidableEq

/-- The line filter of stats.py line 162: `len(line) != 1 and '#' not in
line`. -/
def goodLineB (line : String) : Bool :=
  line.length != 1 && !(line.toList.contains '#')

/-- Parsing loop of `get_daemons_stats_` (stats.py lines 157-166): every line
that is not a single character and contains no `'#'` is split on `'='` after
dropping its final character; the value is unquoted by dropping its first and
last characters and parsed with `float()`; the first exception (missing `'='`
field or failed conversion) aborts the loop with the exception message. -/
def daemonLines : List (String × PyFloat) → List String →
    Except String (List (String × PyFloat))
  | items, [] => .ok items
  | items, line :: rest =>
    if goodLineB line then
      match (pySplit (pyDropLast line) "=")[1]? with
      | none => .error "list index out of range"
      | some raw =>
        match pyFloat (pySliceInner raw) with
        | some v =>
          daemonLines (pyDictSet items (pySplit (pyDropLast line) "=")[0]! v) rest
        | none => .error ("could not convert string to float: " ++ pySliceInner raw)
    else daemonLines items rest

/-- The per-line body of `daemonLines` raises: no `'='` field, or a value that
`float()` rejects. -/
def lineParseFails (line : String) : Bool :=
  match (pySplit (pyDropLast line) "=")[1]? with
  | none => true
  | some raw => (pyFloat (pySliceInner raw)).isNone

/-- Outcome of `daemonStatsOfContent` on the content of a readable file. -/
def daemonStatsOfContent (content : String) : DaemonStatsOutcome :=
  match daemonLines [] (pyReadlines content) with
  | .ok items => .ok [items]
  | .error msg => .internalError 1104 msg

/-- Embedding of `get_daemons_stats_` (stats.py lines 124-170) over the
filesystem map. -/
def get_daemons_stats_ (fs : String → Option String) (filename : String) :
    DaemonStatsOutcome :=
  match fs filename with
  | none => .raisedError 1308 filename
  | some content => daemonStatsOfContent content

theorem get_daemons_stats_some {fs : String → Option String} {filename content : String}
    (h : fs filename = some content) :
    get_daemons_stats_ fs filename = daemonStatsOfContent content := by
  unfold get_daemons_stats_
  rw [h]

/-- A line that the parsing pass of `get_daemons_stats_` processes and fails
on: it passes the length/comment filter but has no `'='` field or a value
that `float()` rejects. -/
def lineFails (line : String) : Bool :=
  goodLineB line && lineParseFails line

theorem daemonLines_err (lines : List String) :
    ∀ items, (∃ l ∈ lines, lineFails l = true) →
      ∃ msg, daemonLines items lines = .error msg := by
  induction lines with
  | nil => intro _ h; simp at h
  | cons line rest ih =>
    intro items h
    obtain ⟨l, hl, hfail⟩ := h
    rcases hgood : goodLineB line with _ | _
    · have hlrest : l ∈ rest := by
        rcases List.mem_cons.mp hl with rfl | h'
        · rw [lineFails, hgood] at hfail
          simp at hfail
        · exact h'
      obtain ⟨msg, hmsg⟩ := ih items ⟨l, hlrest, hfail⟩
      exact ⟨msg, by simp [daemonLines, hgood, hmsg]⟩
    · rcases hidx : (pySplit (pyDropLast line) "=")[1]? with _ | raw
      · exact ⟨"list index out of range", by simp [daemonLines, hgood, hidx]⟩
      · rcases hfl : pyFloat (pySliceInner raw) with _ | v
        · exact ⟨"could not convert string to float: " ++ pySliceInner raw,
            by simp [daemonLines, hgood, hidx, hfl]⟩
        · have hlrest : l ∈ rest := by
            rcases List.mem_cons.mp hl with rfl | h'
            · rw [lineFails, Bool.and_eq_true] at hfail
              rw [lineParseFails, hidx] at hfail
              simp [hfl] at hfail
            · exact h'
          obtain ⟨msg, hmsg⟩ :=
            ih (pyDictSet items (pySplit (pyDropLast line) "=")[0]! v) ⟨l, hlrest, hfail⟩
          exact ⟨msg, by simp [daemonLines, hgood, hidx, hfl, hmsg]⟩

theorem daemonLines_ok (lines : List String) :
    ∀ items, (∀ l ∈ lines, lineFails l = false) →
      ∃ res, daemonLines items lines = .ok res := by
  induction lines with
  | nil => intro items _; exact ⟨items, rfl⟩
  | cons line rest ih =>
    intro items h
    have hrest := fun x hx => h x (List.mem_cons_of_mem _ hx)
    have hline := h line (List.mem_cons_self line rest)
    rw [lineFails, Bool.and_eq_false_iff] at hline
    rcases hgood : goodLineB line with _ | _
    · obtain ⟨res, hres⟩ := ih items hrest
      exact ⟨res, by simp [daemonLines, hgood, hres]⟩
    · have hpf : lineParseFails line = false := by
        rcases hline with h1 | h2
        · rw [hgood] at h1; cases h1
        · exact h2
      rcases hidx : (pySplit (pyDropLast line) "=")[1]? with _ | raw
      · rw [lineParseFails, hidx] at hpf
        cases hpf
      · rcases hfl : pyFloat (pySliceInner raw) with _ | v
        · rw [lineParseFails, hidx] at hpf
          simp [hfl] at hpf
        · obtain ⟨res, hres⟩ :=
            ih (pyDictSet items (pySplit (pyDropLast line) "=")[0]! v) hrest
          exact ⟨res, by simp [daemonLines, hgood, hidx, hfl, hres]⟩

/-- C8: `get_daemons_stats_` on a readable file parses every non-comment,
non-single-character line by splitting on `'='`, stripping the newline and the
surrounding quotes from the value and converting it with `float()` (so
`key="1.5"` yields the mapping `key ↦ 1.5` and `'#'` lines are ignored); any
parse failure yields the internal-error result 1104 carrying the underlying
message instead of raising, and an unreadable file raises error 1308 carrying
the path. -/
theorem daemon_stats_parse (fs : String → Option String) (filename : String) :
    (fs filename = some "key=\"1.5\"\n" →
      get_daemons_stats_ fs filename = .ok [[("key", ⟨15, -1⟩)]] ∧
        PyFloat.toRat ⟨15, -1⟩ = (3 : Rat) / 2) ∧
    (fs filename = some "# comment\nkey=\"2.5\"\n" →
      get_daemons_stats_ fs filename = .ok [[("key", ⟨25, -1⟩)]] ∧
        PyFloat.toRat ⟨25, -1⟩ = (5 : Rat) / 2) ∧
    (∀ content, fs filename = some content →
      (∃ l ∈ pyReadlines content, lineFails l = true) →
      ∃ msg, get_daemons_stats_ fs filename = .internalError 1104 msg) ∧
    (∀ content, fs filename = some content →
      (∀ l ∈ pyReadlines content, lineFails l = false) →
      ∃ items, get_daemons_stats_ fs filename = .ok [items]) ∧
    (fs filename = none → get_daemons_stats_ fs filename = .raisedError 1308 filename) := by
  refine ⟨?_, ?_, ?_, ?_, ?_⟩
  · intro h
    refine ⟨?_, by norm_num [PyFloat.toRat]⟩
    rw [get_daemons_stats_some h]
    decide
  · intro h
    refine ⟨?_, by norm_num [PyFloat.toRat]⟩
    rw [get_daemons_stats_some h]
    decide
  · intro content hc hbad
    obtain ⟨msg, hmsg⟩ := daemonLines_err (pyReadlines content) [] hbad
    exact ⟨msg, by rw [get_daemons_stats_some hc]; simp [daemonStatsOfContent, hmsg]⟩
  · intro content hc hok
    obtain ⟨items, hitems⟩ := daemonLines_ok (pyReadlines content) [] hok
    exact ⟨items, by rw [get_daemons_stats_some hc]; simp [daemonStatsOfContent, hitems]⟩
  · intro h
    unfold get_daemons_stats_
    rw [h]

/-- Filesystem used to witness C8: one daemon stats file with a single quoted
numeric entry. -/
def fsDaemonW : String → Option String := fun p =>
  if p = "/var/ossec/var/run/wazuh-remoted.state" then some "key=\"1.5\"\n" else none

theorem daemon_stats_parse_witness :
    get_daemons_stats_ fsDaemonW "/var/ossec/var/run/wazuh-remoted.state" =
        .ok [[("key", ⟨15, -1⟩)]] ∧
      PyFloat.toRat ⟨15, -1⟩ = (3 : Rat) / 2 :=
  (daemon_stats_parse fsDaemonW "/var/ossec/var/run/wazuh-remoted.state").1 (by decide)

/-- JSON-like value of a decoded daemon reply (`json.loads` result).  An
`obj` models a Python dict with its insertion order. -/
inductive PVal
  | str (s : String)
  | num (n : Int)
  | obj (fields : List (String × PVal))

/-- Calendar date-time produced by `datetime.strptime`. -/
structure PyDateTime where
  year : Nat
  month : Nat
  day : Nat
  hour : Nat
  minute : Nat
  second : Nat
deriving DecidableEq

/-- Gregorian leap-year test, as validated by `datetime`. -/
def isLeapYear (y : Nat) : Bool :=
  y % 4 == 0 && (y % 100 != 0 || y % 400 == 0)

/-- Number of days of month `m` in year `y`. -/
def daysInMonth (y m : Nat) : Nat :=
  if m = 2 then (if isLeapYear y then 29 else 28)
  else if m = 4 ∨ m = 6 ∨ m = 9 ∨ m = 11 then 30
  else 31

/-- Read exactly four digits. -/
def read4 : List Char → Option (Nat × List Char)
  | c1 :: c2 :: c3 :: c4 :: rest =>
    if isDigitCh c1 && isDigitCh c2 && isDigitCh c3 && isDigitCh c4 then
      some (digitVal c1 * 1000 + digitVal c2 * 100 + digitVal c3 * 10 + digitVal c4, rest)
    else none
  | _ => none

/-- Read one or two digits (two when available, like the `strptime` regex
followed by a non-digit separator). -/
def read2 : List Char → Option (Nat × List Char)
  | c1 :: c2 :: rest =>
    if isDigitCh c1 then
      if isDigitCh c2 then some (digitVal c1 * 10 + digitVal c2, rest)
      else some (digitVal c1, c2 :: rest)
    else none
  | [c1] => if isDigitCh c1 then some (digitVal c1, []) else none
  | [] => none

/-- Require one literal character. -/
def expectCh (c : Char) : List Char → Option (List Char)
  | c' :: rest => if c' = c then some rest else none
  | [] => none

/-- Model of `datetime.strptime(s, "%Y-%m-%d %H:%M:%S")`: a four-digit year
and one- or two-digit remaining fields separated by the literal separators,
validated against the calendar; `none` models the raised `ValueError`. -/
def strptimeYmdHMS (s : String) : Option PyDateTime :=
  (read4 s.toList).bind fun p1 =>
    (expectCh '-' p1.2).bind fun r1 =>
      (read2 r1).bind fun p2 =>
        (expectCh '-' p2.2).bind fun r2 =>
          (read2 r2).bind fun p3 =>
            (expectCh ' ' p3.2).bind fun r3 =>
              (read2 r3).bind fun p4 =>
                (expectCh ':' p4.2).bind fun r4 =>
                  (read2 r4).bind fun p5 =>
                    (expectCh ':' p5.2).bind fun r5 =>
                      (read2 r5).bind fun p6 =>
                        if p6.2 = [] ∧ 1 ≤ p1.1 ∧ 1 ≤ p2.1 ∧ p2.1 ≤ 12 ∧ 1 ≤ p3.1 ∧
                            p3.1 ≤ daysInMonth p1.1 p2.1 ∧ p4.1 ≤ 23 ∧ p5.1 ≤ 59 ∧
                            p6.1 ≤ 59 then
                          some ⟨p1.1, p2.1, p3.1, p4.1, p5.1, p6.1⟩
                        else none

/-- First-match lookup in a decoded object (Python dict subscript). -/
def pyLookup : List (String × PVal) → String → Option PVal
  | [], _ => none
  | (k, v) :: rest, key => if k = key then some v else pyLookup rest key

/-- Model of Python `s.split(" ", 1)`: at most one split, at the first
space. -/
def splitFirstGo : List Char → List Char → List String
  | [], acc => [String.mk acc.reverse]
  | c :: rest, acc =>
    if c = ' ' then [String.mk acc.reverse, String.mk rest]
    else splitFirstGo rest (c :: acc)

/-- Model of Python `s.split(" ", 1)`. -/
def pySplitFirst (s : String) : List String := splitFirstGo s.toList []

/-- Exception raised by `get_daemons_stats_from_socket`:
`WazuhError`/`WazuhInternalError` with code and optional extra message, the
`IndexError` escaping the error-envelope split, or a non-`ValueError`
transport exception propagating from `receive`. -/
inductive SockExc
  | wazuhError (code : Nat) (extra : Option String)
  | wazuhInternalError (code : Nat) (extra : Option String)
  | indexError
  | otherError
deriving DecidableEq

/-- Socket operations performed by `get_daemons_stats_from_socket`, in
order. -/
inductive SockOp
  | openS (path : String)
  | send (cmd : String)
  | recv
  | close
deriving DecidableEq

/-- Outcome of `s.receive().decode()` on the external transport. -/
inductive RecvOutcome
  | ok (msg : String)
  | valueError
  | otherExc

/-- External collaborators of `get_daemons_stats_from_socket`: the configured
installation root, whether `WazuhSocket(dest)` succeeds, the receive outcome,
the `json.loads` parser and the `strftime(common.date_format)` formatter. -/
structure SockEnv where
  wazuh_path : String
  openOk : Bool
  recvOutcome : RecvOutcome
  loads : String → Option PVal
  dateFmt : PyDateTime → String

/-- The timestamp reformatting pass of stats.py lines 258-259: every entry
whose key is `last_keepalive` or `last_ack` is re-parsed with `strptime` and
re-rendered with the canonical formatter; a value that is not a string in the
source format raises (`none`), other entries are untouched. -/
def reformatData (dateFmt : PyDateTime → String) :
    List (String × PVal) → Option (List (String × PVal))
  | [] => some []
  | (k, v) :: rest =>
    if k = "last_keepalive" ∨ k = "last_ack" then
      match v with
      | .str s =>
        match strptimeYmdHMS s with
        | some dt => (reformatData dateFmt rest).map fun tl => (k, PVal.str (dateFmt dt)) :: tl
        | none => none
      | _ => none
    else (reformatData dateFmt rest).map fun tl => (k, v) :: tl

/-- Response decoding of `get_daemons_stats_from_socket` (stats.py lines
255-263): parse the reply as JSON and take its `data` field, reformatting the
two timestamp keys; any failure in that path falls back to the error
envelope, whose text after the first space becomes `WazuhError(1117)` — and a
reply without a space makes the `[1]` subscript raise `IndexError`. -/
def formatResponse (loads : String → Option PVal) (dateFmt : PyDateTime → String)
    (rec_msg : String) : Except SockExc (List (String × PVal)) :=
  match (loads rec_msg).bind (fun top =>
    match top with
    | .obj fields =>
      match pyLookup fields "data" with
      | some (.obj d) => reformatData dateFmt d
      | _ => none
    | _ => none) with
  | some d => .ok d
  | none =>
    match pySplitFirst rec_msg with
    | [_, tail] => .error (.wazuhError 1117 (some tail))
    | _ => .error .indexError

/-- The `queue/sockets` directory under the installation root (stats.py line
226). -/
def socketsPath (wp : String) : String := pyJoin (pyJoin wp "queue") "sockets"

/-- Socket phase of `get_daemons_stats_from_socket` (stats.py lines 238-263):
open (failure raises 1121), send, receive (a `ValueError` raises 1118 before
any close, any other exception also propagates before any close), close, then
decode the response. -/
def connectAndQuery (env : SockEnv) (dest command : String) :
    Except SockExc (List (String × PVal)) × List SockOp :=
  if env.openOk then
    match env.recvOutcome with
    | .ok msg =>
      (formatResponse env.loads env.dateFmt msg,
        [.openS dest, .send command, .recv, .close])
    | .valueError =>
      (.error (.wazuhInternalError 1118 (some "Data could not be received")),
        [.openS dest, .send command, .recv])
    | .otherExc => (.error .otherError, [.openS dest, .send command, .recv])
  else (.error (.wazuhInternalError 1121 none), [.openS dest])

/-- Embedding of `get_daemons_stats_from_socket` (stats.py lines 208-263)
over the external environment, returning the result together with the trace
of socket operations performed. -/
def get_daemons_stats_from_socket (env : SockEnv) (agent_id daemon : String) :
    Except SockExc (List (String × PVal)) × List SockOp :=
  if agent_id = "" ∨ daemon = "" then (.error (.wazuhError 1307 none), [])
  else
    if zfill3 agent_id = "000" then
      if daemon = "agent" then (.error (.wazuhError 1310 none), [])
      else connectAndQuery env (pyJoin (socketsPath env.wazuh_path) daemon) "getstate"
    else
      connectAndQuery env (pyJoin (socketsPath env.wazuh_path) "request")
        (zfill3 agent_id ++ " " ++ daemon ++ " getstate")

theorem connectAndQuery_close (env : SockEnv) (dest command : String)
    (h4 : env.openOk = true) :
    (∀ msg, env.recvOutcome = .ok msg →
      SockOp.close ∈ (connectAndQuery env dest command).2) ∧
    (env.recvOutcome = .valueError →
      SockOp.close ∉ (connectAndQuery env dest command).2) := by
  constructor
  · intro msg hr
    unfold connectAndQuery
    rw [if_pos h4, hr]
    simp
  · intro hr
    unfold connectAndQuery
    rw [if_pos h4, hr]
    simp

/-- C3 (amended): once the request is valid and the socket opens, the socket
is closed on the successful-decode path and on the decode-failure path (both
run after the unconditional close); but on the path where `receive` fails
with a `ValueError` the function raises error 1118 without ever closing the
socket. -/
theorem socket_close_paths (env : SockEnv) (aid daemon : String)
    (h1 : aid ≠ "") (h2 : daemon ≠ "") (h3 : ¬(zfill3 aid = "000" ∧ daemon = "agent"))
    (h4 : env.openOk = true) :
    (∀ msg, env.recvOutcome = .ok msg →
      SockOp.close ∈ (get_daemons_stats_from_socket env aid daemon).2) ∧
    (env.recvOutcome = .valueError →
      SockOp.close ∉ (get_daemons_stats_from_socket env aid daemon).2) := by
  unfold get_daemons_stats_from_socket
  rw [if_neg (by simp [h1, h2])]
  by_cases hz : zfill3 aid = "000"
  · rw [if_pos hz, if_neg (fun hd => h3 ⟨hz, hd⟩)]
    exact connectAndQuery_close env _ _ h4
  · rw [if_neg hz]
    exact connectAndQuery_close env _ _ h4

/-- Environment under which the receive step fails with a `ValueError` after
a successful open. -/
def envNoClose : SockEnv :=
  ⟨"/var/ossec", true, .valueError, fun _ => none, fun _ => ""⟩

theorem socket_close_receive_failure_counterexample :
    (get_daemons_stats_from_socket envNoClose "001" "wazuh-analysisd").2 =
        [SockOp.openS "/var/ossec/queue/sockets/request",
          SockOp.send "001 wazuh-analysisd getstate", SockOp.recv] ∧
      SockOp.close ∉ (get_daemons_stats_from_socket envNoClose "001" "wazuh-analysisd").2 ∧
      (get_daemons_stats_from_socket envNoClose "001" "wazuh-analysisd").1 =
        .error (.wazuhInternalError 1118 (some "Data could not be received")) :=
  ⟨rfl, by decide, rfl⟩

/-- Environment with a successful open and receive, used as a witness. -/
def envOkW : SockEnv :=
  ⟨"/var/ossec", true, .ok "OK", fun _ => none, fun _ => ""⟩

theorem socket_close_paths_witness :
    SockOp.close ∈ (get_daemons_stats_from_socket envOkW "001" "wazuh-analysisd").2 ∧
      SockOp.close ∉ (get_daemons_stats_from_socket envNoClose "001" "wazuh-analysisd").2 := by
  constructor
  · exact (socket_close_paths envOkW "001" "wazuh-analysisd" (by decide) (by decide)
      (by decide) rfl).1 "OK" rfl
  · exact (socket_close_paths envNoClose "001" "wazuh-analysisd" (by decide) (by decide)
      (by decide) rfl).2 rfl

/-- A timestamp value as expected by the reformatting pass: a string in the
`YYYY-MM-DD HH:MM:SS` source format. -/
def tsOk (v : PVal) : Bool :=
  match v with
  | .str s => (strptimeYmdHMS s).isSome
  | _ => false

/-- Specification-side reformatting of one entry of the `data` mapping:
`last_keepalive` / `last_ack` values are re-rendered with the canonical
formatter, every other entry is unchanged. -/
def reformatEntry (dateFmt : PyDateTime → String) (p : String × PVal) : String × PVal :=
  if p.1 = "last_keepalive" ∨ p.1 = "last_ack" then
    match p.2 with
    | .str s =>
      match strptimeYmdHMS s with
      | some dt => (p.1, .str (dateFmt dt))
      | none => p
    | _ => p
  else p

theorem reformatData_ok (dateFmt : PyDateTime → String) (d : List (String × PVal))
    (h : ∀ p ∈ d, (p.1 = "last_keepalive" ∨ p.1 = "last_ack") → tsOk p.2 = true) :
    reformatData dateFmt d = some (d.map (reformatEntry dateFmt)) := by
  induction d with
  | nil => simp [reformatData]
  | cons p rest ih =>
    obtain ⟨k, v⟩ := p
    have hrest := ih fun x hx => h x (List.mem_cons_of_mem _ hx)
    by_cases hk : k = "last_keepalive" ∨ k = "last_ack"
    · have hts : tsOk v = true := h (k, v) (List.mem_cons_self _ _) hk
      rcases v with s | n | fields
      · rcases hst : strptimeYmdHMS s with _ | dt
        · have hsome : (strptimeYmdHMS s).isSome = true := hts
          rw [hst] at hsome
          cases hsome
        · simp [reformatData, if_pos hk, hst, hrest, reformatEntry]
      · exact Bool.noConfusion hts
      · exact Bool.noConfusion hts
    · simp [reformatData, if_neg hk, hrest, reformatEntry]

/-- C4: response decoding is dual-path.  If the reply parses as structured
JSON whose `data` field is a mapping with well-formed timestamps, the
function returns that mapping with each `last_keepalive` / `last_ack` value
reformatted into the canonical date format and every other field unchanged.
If structured parsing fails, it raises `WazuhError(1117)` carrying everything
after the first space of the raw reply. -/
theorem decode_dual_path (loads : String → Option PVal) (dateFmt : PyDateTime → String) :
    (∀ rec_msg top d, loads rec_msg = some (.obj top) →
      pyLookup top "data" = some (.obj d) →
      (∀ p ∈ d, (p.1 = "last_keepalive" ∨ p.1 = "last_ack") → tsOk p.2 = true) →
      formatResponse loads dateFmt rec_msg = .ok (d.map (reformatEntry dateFmt))) ∧
    (∀ rec_msg head tail, loads rec_msg = none →
      pySplitFirst rec_msg = [head, tail] →
      formatResponse loads dateFmt rec_msg = .error (.wazuhError 1117 (some tail))) := by
  constructor
  · intro rec_msg top d hl hd hwf
    unfold formatResponse
    rw [hl]
    simp only [Option.some_bind, hd, reformatData_ok dateFmt d hwf]
  · intro rec_msg head tail hl hsp
    unfold formatResponse
    rw [hl]
    simp only [Option.none_bind, hsp]

/-- Parser used to witness C4: one fixed structured reply. -/
def loadsW : String → Option PVal := fun s =>
  if s = "OK" then
    some (.obj [("error", .num 0),
      ("data", .obj [("last_keepalive", .str "2021-01-01 00:00:00"), ("uptime", .num 12)])])
  else none

/-- Canonical date formatter used to witness C4. -/
def dateFmtW : PyDateTime → String := fun dt => toString dt.year ++ "T" ++ toString dt.hour

theorem decode_dual_path_witness :
    formatResponse loadsW dateFmtW "OK" =
        .ok ([("last_keepalive", PVal.str "2021-01-01 00:00:00"),
          ("uptime", PVal.num 12)].map (reformatEntry dateFmtW)) ∧
      formatResponse loadsW dateFmtW "ERROR invalid target" =
        .error (.wazuhError 1117 (some "invalid target")) :=
  ⟨(decode_dual_path loadsW dateFmtW).1 "OK"
      [("error", .num 0),
        ("data", .obj [("last_keepalive", .str "2021-01-01 00:00:00"), ("uptime", .num 12)])]
      [("last_keepalive", .str "2021-01-01 00:00:00"), ("uptime", .num 12)]
      rfl rfl (by decide),
    (decode_dual_path loadsW dateFmtW).2 "ERROR invalid target" "ERROR" "invalid target"
      rfl rfl⟩

theorem splitFirstGo_no_space (cs : List Char) :
    ∀ acc, cs.contains ' ' = false →
      splitFirstGo cs acc = [String.mk (acc.reverse ++ cs)] := by
  induction cs with
  | nil => intro acc _; simp [splitFirstGo]
  | cons c rest ih =>
    intro acc h
    simp only [List.contains_cons, Bool.or_eq_false_iff, beq_eq_false_iff_ne] at h
    rw [splitFirstGo, if_neg (fun hc => h.1 hc.symm)]
    rw [ih (c :: acc) h.2]
    simp

theorem pySplitFirst_no_space (s : String) (h : s.toList.contains ' ' = false) :
    pySplitFirst s = [s] := by
  unfold pySplitFirst
  rw [splitFirstGo_no_space s.toList [] h]
  cases s
  rfl

/-- C9: on a reply that fails structured parsing and contains no space, the
error-envelope extraction `rec_msg.split(" ", 1)[1]` has no second field, so
the subscript raises `IndexError` and the function never produces the wrapped
`WazuhError(1117)`. -/
theorem decode_no_space_index_error (loads : String → Option PVal)
    (dateFmt : PyDateTime → String) (rec_msg : String)
    (hl : loads rec_msg = none) (hs : rec_msg.toList.contains ' ' = false) :
    formatResponse loads dateFmt rec_msg = .error .indexError ∧
      ∀ m, formatResponse loads dateFmt rec_msg ≠ .error (.wazuhError 1117 m) := by
  have hmain : formatResponse loads dateFmt rec_msg = .error .indexError := by
    unfold formatResponse
    rw [hl]
    simp only [Option.none_bind, pySplitFirst_no_space rec_msg hs]
  exact ⟨hmain, fun m => by rw [hmain]; simp⟩

/-- Parser used to witness C9: nothing parses as structured data. -/
def loadsNoneW : String → Option PVal := fun _ => none

theorem decode_no_space_index_error_witness :
    formatResponse loadsNoneW dateFmtW "err" = .error .indexError ∧
      formatResponse loadsNoneW dateFmtW "err" ≠
        .error (.wazuhError 1117 (some "err")) :=
  ⟨(decode_no_space_index_error loadsNoneW dateFmtW "err" rfl (by decide)).1,
    (decode_no_space_index_error loadsNoneW dateFmtW "err" rfl (by decide)).2 (some "err")⟩

theorem connectAndQuery_take2 (env : SockEnv) (dest command : String)
    (h4 : env.openOk = true) :
    (connectAndQuery env dest command).2.take 2 = [SockOp.openS dest, SockOp.send command] := by
  unfold connectAndQuery
  rw [if_pos h4]
  cases env.recvOutcome <;> simp

/-- C5: the request phase of `get_daemons_stats_from_socket`.  An empty agent
id or daemon raises error 1307 with no socket operation; agent `000` with
daemon `agent` raises error 1310 with no socket operation; agent `000` with
any other daemon opens the per-daemon socket and sends the literal command
`getstate`; any other agent id opens the shared `request` socket and sends
`"<id zero-padded to 3> <daemon> getstate"`. -/
theorem request_phase_cases (env : SockEnv) (aid daemon : String) :
    (aid = "" ∨ daemon = "" →
      get_daemons_stats_from_socket env aid daemon = (.error (.wazuhError 1307 none), [])) ∧
    (zfill3 aid = "000" → daemon = "agent" → aid ≠ "" →
      get_daemons_stats_from_socket env aid daemon = (.error (.wazuhError 1310 none), [])) ∧
    (zfill3 aid = "000" → daemon ≠ "agent" → aid ≠ "" → daemon ≠ "" → env.openOk = true →
      (get_daemons_stats_from_socket env aid daemon).2.take 2 =
        [SockOp.openS (pyJoin (socketsPath env.wazuh_path) daemon),
          SockOp.send "getstate"]) ∧
    (zfill3 aid ≠ "000" → aid ≠ "" → daemon ≠ "" → env.openOk = true →
      (get_daemons_stats_from_socket env aid daemon).2.take 2 =
        [SockOp.openS (pyJoin (socketsPath env.wazuh_path) "request"),
          SockOp.send (zfill3 aid ++ " " ++ daemon ++ " getstate")]) := by
  refine ⟨?_, ?_, ?_, ?_⟩
  · intro h
    unfold get_daemons_stats_from_socket
    rw [if_pos h]
  · intro hz hd h1
    have h2 : daemon ≠ "" := by rw [hd]; decide
    unfold get_daemons_stats_from_socket
    rw [if_neg (by simp [h1, h2]), if_pos hz, if_pos hd]
  · intro hz hd h1 h2 ho
    unfold get_daemons_stats_from_socket
    rw [if_neg (by simp [h1, h2]), if_pos hz, if_neg hd]
    exact connectAndQuery_take2 env _ _ ho
  · intro hz h1 h2 ho
    unfold get_daemons_stats_from_socket
    rw [if_neg (by simp [h1, h2]), if_neg hz]
    exact connectAndQuery_take2 env _ _ ho

theorem request_phase_cases_witness :
    get_daemons_stats_from_socket envOkW "" "wazuh-analysisd" =
        (.error (.wazuhError 1307 none), []) ∧
      get_daemons_stats_from_socket envOkW "000" "agent" =
        (.error (.wazuhError 1310 none), []) ∧
      (get_daemons_stats_from_socket envOkW "000" "wazuh-remoted").2.take 2 =
        [SockOp.openS (pyJoin (socketsPath envOkW.wazuh_path) "wazuh-remoted"),
          SockOp.send "getstate"] ∧
      (get_daemons_stats_from_socket envOkW "1" "wazuh-analysisd").2.take 2 =
        [SockOp.openS (pyJoin (socketsPath envOkW.wazuh_path) "request"),
          SockOp.send (zfill3 "1" ++ " " ++ "wazuh-analysisd" ++ " getstate")] :=
  ⟨(request_phase_cases envOkW "" "wazuh-analysisd").1 (Or.inl rfl),
    (request_phase_cases envOkW "000" "agent").2.1 (by decide) rfl (by decide),
    (request_phase_cases envOkW "000" "wazuh-remoted").2.2.1 (by decide) (by decide)
      (by decide) (by decide) rfl,
    (request_phase_cases envOkW "1" "wazuh-analysisd").2.2.2 (by decide) (by decide)
      (by decide) rfl⟩

end WazuhStats
